import Mathlib

/-!
Verification development for the medical data-processing pipeline
(`backend/tool_collection/mcp/...`): a shallow embedding in Lean 4 of the
text cleaner, the knowledge annotator's overlap merge, the QA generator and
the knowledge-base integrator, together with theorems about the properties
stated in the design document.

Conventions of the embedding:
* Python strings are `List Char` (or Lean `String` at the interfaces);
  `len` is `List.length`.
* Python `float` scores are `ℚ`; `round(x, n)` is round-half-to-even, as in
  Python 3 (`pyRound`).
* `re.sub(pattern, ' ', s)` for the concrete noise patterns is modelled by a
  left-to-right scanner (`scanSub`) with one hand-written deterministic
  matcher per pattern (the patterns need no backtracking except the
  term-extraction patterns, which get the greedy-prefix backtracking loop
  `findTermAt`).
* `random.choice` / `random.shuffle` consume values from an explicit oracle
  stream (`Rng`), `v % len` picking the index; `random.shuffle` is the
  Fisher-Yates loop of CPython.
* `dict` iteration follows insertion order, as in Python 3.7+; the order of
  `list(set(...))` is interpreter-defined, so it is modelled as
  first-occurrence deduplication (`List.eraseDups`) and only its length is
  relied upon in theorems.
-/

namespace Nexent

/-! ### Generic string helpers -/

/-- Python `\s` for the character repertoire handled by this code base. -/
def isPySpace (c : Char) : Bool :=
  c = ' ' || c = '\t' || c = '\n' || c = '\r' || c = '\x0b' || c = '\x0c'

/-- Python `\d` (ASCII digits). -/
def isPyDigit (c : Char) : Bool := c.isDigit

/-- Length of the longest prefix satisfying `p`. -/
def countLeading (p : Char → Bool) (l : List Char) : Nat :=
  (l.takeWhile p).length

/-- Python `str.strip()`. -/
def pyStrip (l : List Char) : List Char :=
  ((l.dropWhile isPySpace).reverse.dropWhile isPySpace).reverse

/-- Is `needle` a contiguous sublist of `haystack`? (Python `needle in haystack`.) -/
def listContainsSub (needle : List Char) : List Char → Bool
  | [] => needle.isEmpty
  | c :: cs => needle.isPrefixOf (c :: cs) || listContainsSub needle cs

/-- Python `sub in s` on strings. -/
def strContains (s sub : String) : Bool := listContainsSub sub.data s.data

/-- Split a character list at every delimiter (Python `re.split` on a
character class); delimiters are dropped, empty chunks are kept. -/
def splitOnDelims (p : Char → Bool) : List Char → List (List Char)
  | [] => [[]]
  | c :: cs =>
    let r := splitOnDelims p cs
    if p c then [] :: r
    else
      match r with
      | h :: t => (c :: h) :: t
      | [] => [[c]]

/-- Python `str.replace(needle, repl)`: non-overlapping, left to right
(fuel-indexed; fuel is the input length). -/
def replaceAllAux (needle repl : List Char) : Nat → List Char → List Char
  | 0, l => l
  | _ + 1, [] => []
  | fuel + 1, c :: cs =>
    if needle.isPrefixOf (c :: cs) && !needle.isEmpty then
      repl ++ replaceAllAux needle repl fuel ((c :: cs).drop needle.length)
    else
      c :: replaceAllAux needle repl fuel cs

/-- Python `s.replace(needle, repl)` on strings. -/
def strReplace (s needle repl : String) : String :=
  String.mk (replaceAllAux needle.data repl.data s.data.length s.data)

/-- Python `str.split()` (split on whitespace runs, dropping empty parts);
fuel-indexed, fuel is the input length. -/
def pySplitWsAux : Nat → List Char → List (List Char)
  | 0, _ => []
  | _ + 1, [] => []
  | fuel + 1, c :: cs =>
    if isPySpace c then pySplitWsAux fuel cs
    else
      (c :: cs.takeWhile (fun x => !isPySpace x)) ::
        pySplitWsAux fuel (cs.dropWhile (fun x => !isPySpace x))

def pySplitWs (l : List Char) : List (List Char) := pySplitWsAux l.length l

/-! Rational arithmetic wrappers.  The arithmetic of `Rat` in the ambient
library is `@[irreducible]`, so concrete evaluation (`decide`) gets stuck
on it; the wrappers below compute the same values through `mkRat`, which
does reduce, and are proved equal to the standard operations. -/

/-- Addition on `ℚ`, computed through `mkRat`. -/
def qadd (a b : ℚ) : ℚ :=
  mkRat (a.num * (b.den : Int) + b.num * (a.den : Int)) (a.den * b.den)

/-- Subtraction on `ℚ`, computed through `mkRat`. -/
def qsub (a b : ℚ) : ℚ :=
  mkRat (a.num * (b.den : Int) - b.num * (a.den : Int)) (a.den * b.den)

/-- Multiplication on `ℚ`, computed through `mkRat`. -/
def qmul (a b : ℚ) : ℚ := mkRat (a.num * b.num) (a.den * b.den)

/-- Inverse on `ℚ`, computed through `mkRat`. -/
def qinv (b : ℚ) : ℚ :=
  if b.num < 0 then mkRat (-(b.den : Int)) b.num.natAbs
  else mkRat (b.den : Int) b.num.natAbs

/-- Division on `ℚ`, computed through `mkRat`. -/
def qdiv (a b : ℚ) : ℚ := qmul a (qinv b)

theorem qden_ne_zero (a : ℚ) : ((a.den : ℚ)) ≠ 0 :=
  Nat.cast_ne_zero.mpr a.den_nz

theorem qadd_eq (a b : ℚ) : qadd a b = a + b := by
  rw [qadd, Rat.mkRat_eq_divInt, Rat.divInt_eq_div]
  conv_rhs => rw [← Rat.num_div_den a, ← Rat.num_div_den b]
  rw [div_add_div _ _ (qden_ne_zero a) (qden_ne_zero b)]
  push_cast
  ring_nf

theorem qsub_eq (a b : ℚ) : qsub a b = a - b := by
  rw [qsub, Rat.mkRat_eq_divInt, Rat.divInt_eq_div]
  conv_rhs => rw [← Rat.num_div_den a, ← Rat.num_div_den b]
  rw [div_sub_div _ _ (qden_ne_zero a) (qden_ne_zero b)]
  push_cast
  ring_nf

theorem qmul_eq (a b : ℚ) : qmul a b = a * b :=
  (Rat.mul_eq_mkRat a b).symm

theorem qinv_eq (b : ℚ) : qinv b = b⁻¹ := by
  rw [Rat.inv_def', qinv]
  split
  · rename_i h
    rw [Rat.mkRat_eq_divInt]
    have hnum : b.num = -(b.num.natAbs : Int) := by
      rw [Int.ofNat_natAbs_of_nonpos (le_of_lt h)]
      ring
    conv_rhs => rw [hnum]
    rw [Rat.divInt_neg]
  · rw [Rat.mkRat_eq_divInt]
    rename_i h
    have hnum : b.num = (b.num.natAbs : Int) :=
      (Int.natAbs_of_nonneg (not_lt.mp h)).symm
    conv_rhs => rw [hnum]

theorem qdiv_eq (a b : ℚ) : qdiv a b = a / b := by
  rw [qdiv, qmul_eq, qinv_eq, div_eq_mul_inv]

/-- Python 3 `round` to an integer: round half to even. -/
def roundHalfEven (s : ℚ) : ℤ :=
  let m := ⌊s⌋
  let f := qsub s ((m : Int) : ℚ)
  if f < mkRat 1 2 then m
  else if mkRat 1 2 < f then m + 1
  else if m % 2 = 0 then m else m + 1

/-- Python `round(q, n)`. -/
def pyRound (q : ℚ) (n : Nat) : ℚ :=
  qdiv ((roundHalfEven (qmul q ((10 ^ n : Nat) : ℚ)) : Int) : ℚ) ((10 ^ n : Nat) : ℚ)

/-! ### Knowledge annotator (`knowledge_annotator.py`)

Only the parts the claims are about: the `MedicalAnnotation` record and
`_merge_overlapping_annotations` (lines 261-287). -/

/-- The `AnnotationType` enum of `knowledge_annotator.py`. -/
inductive AnnotationType where
  | medical_term
  | disease
  | symptom
  | treatment
  | anatomy
  | pathology
  | diagnostic_method
  | medication
deriving DecidableEq

/-- The `MedicalAnnotation` dataclass. Positions are Python `int`s. -/
structure MedicalAnnotation where
  text : String
  start_pos : Int
  end_pos : Int
  annotation_type : AnnotationType
  confidence : ℚ
  metadata : List (String × String)
deriving DecidableEq

/-- The sort key of `_merge_overlapping_annotations`:
`sorted(..., key=lambda x: (x.start_pos, x.end_pos))`, i.e. the
lexicographic order on `(start_pos, end_pos)`. -/
def annLE (a b : MedicalAnnotation) : Prop :=
  a.start_pos < b.start_pos ∨ (a.start_pos = b.start_pos ∧ a.end_pos ≤ b.end_pos)

instance : DecidableRel annLE := fun a b => by
  unfold annLE; infer_instance

theorem annLE_total (a b : MedicalAnnotation) : annLE a b ∨ annLE b a := by
  unfold annLE
  rcases lt_trichotomy a.start_pos b.start_pos with h | h | h
  · exact Or.inl (Or.inl h)
  · rcases le_total a.end_pos b.end_pos with h' | h'
    · exact Or.inl (Or.inr ⟨h, h'⟩)
    · exact Or.inr (Or.inr ⟨h.symm, h'⟩)
  · exact Or.inr (Or.inl h)

theorem annLE_trans {a b c : MedicalAnnotation} (h₁ : annLE a b) (h₂ : annLE b c) :
    annLE a c := by
  unfold annLE at *
  rcases h₁ with h₁ | ⟨h₁, h₁'⟩ <;> rcases h₂ with h₂ | ⟨h₂, h₂'⟩
  · exact Or.inl (h₁.trans h₂)
  · exact Or.inl (h₂ ▸ h₁)
  · exact Or.inl (h₁ ▸ h₂)
  · exact Or.inr ⟨h₁.trans h₂, h₁'.trans h₂'⟩

instance : IsTotal MedicalAnnotation annLE := ⟨annLE_total⟩
instance : IsTrans MedicalAnnotation annLE := ⟨fun _ _ _ => annLE_trans⟩

theorem annLE_start_le {a b : MedicalAnnotation} (h : annLE a b) :
    a.start_pos ≤ b.start_pos := by
  rcases h with h | ⟨h, _⟩
  · exact le_of_lt h
  · exact le_of_eq h

/-- One iteration of the merge scan.  The accumulator is kept reversed:
its head is `merged[-1]` of the source.  When the current annotation starts
at or before the end of the last kept one (`current.start_pos <=
last.end_pos`), the one with higher confidence wins, ties broken by longer
span, with the previously kept annotation winning remaining ties. -/
def mergeStep (merged : List MedicalAnnotation) (current : MedicalAnnotation) :
    List MedicalAnnotation :=
  match merged with
  | [] => [current]
  | last :: rest =>
    if current.start_pos ≤ last.end_pos then
      if current.confidence > last.confidence ∨
          (current.confidence = last.confidence ∧
            current.end_pos - current.start_pos > last.end_pos - last.start_pos) then
        current :: rest
      else
        last :: rest
    else
      current :: last :: rest

/-- `_merge_overlapping_annotations` (knowledge_annotator.py:261-287):
sort by `(start_pos, end_pos)`, scan left to right keeping a running
`merged` list, with `mergeStep` deciding overlap resolution. -/
def _merge_overlapping_annotations (anns : List MedicalAnnotation) :
    List MedicalAnnotation :=
  if anns.isEmpty then []
  else ((List.insertionSort annLE anns).foldl mergeStep []).reverse

/-! Invariant machinery for the merge scan.  `mergeRel x y` says `x` ends
strictly before `y` starts and `x` is at most `y` in the sort key; the
reversed accumulator is a `Chain'` of the flipped relation. -/

/-- Strict separation plus sort-key order, in output order. -/
def mergeRel (x y : MedicalAnnotation) : Prop :=
  x.end_pos < y.start_pos ∧ annLE x y

theorem mergeRel_trans {x y z : MedicalAnnotation}
    (h₁ : mergeRel x y) (h₂ : mergeRel y z) : mergeRel x z := by
  refine ⟨?_, annLE_trans h₁.2 h₂.2⟩
  exact lt_of_lt_of_le h₁.1 (annLE_start_le h₂.2)

/-- The reversed accumulator is well formed: consecutive elements are
separated and ordered (head is the most recently kept annotation). -/
def GoodRev (acc : List MedicalAnnotation) : Prop :=
  acc.Chain' (fun x y => mergeRel y x)

theorem mem_mergeStep {acc : List MedicalAnnotation} {a x : MedicalAnnotation}
    (h : x ∈ mergeStep acc a) : x = a ∨ x ∈ acc := by
  match acc with
  | [] =>
    simp [mergeStep] at h
    exact Or.inl h
  | last :: rest =>
    simp only [mergeStep] at h
    split at h
    · split at h
      · rcases List.mem_cons.mp h with h | h
        · exact Or.inl h
        · exact Or.inr (List.mem_cons_of_mem _ h)
      · exact Or.inr h
    · rcases List.mem_cons.mp h with h | h
      · exact Or.inl h
      · exact Or.inr h

theorem goodRev_mergeStep {acc : List MedicalAnnotation} {a : MedicalAnnotation}
    (hg : GoodRev acc) (hle : ∀ x ∈ acc, annLE x a) : GoodRev (mergeStep acc a) := by
  match acc with
  | [] => simp [mergeStep, GoodRev]
  | last :: rest =>
    simp only [mergeStep]
    split
    · rename_i hov
      split
    -- replace merged[-1] by the current annotation
      · match rest with
        | [] => simp [GoodRev]
        | r0 :: rest' =>
          have hchain := hg
          rw [GoodRev, List.chain'_cons] at hchain
          obtain ⟨⟨hsep, hr0⟩, htail⟩ := hchain
          rw [GoodRev, List.chain'_cons]
          refine ⟨⟨?_, annLE_trans hr0 (hle last (List.mem_cons_self _ _))⟩, htail⟩
          exact lt_of_lt_of_le hsep (annLE_start_le (hle last (List.mem_cons_self _ _)))
      · exact hg
    · rename_i hov
      rw [GoodRev, List.chain'_cons]
      refine ⟨⟨lt_of_not_le hov, hle last (List.mem_cons_self _ _)⟩, hg⟩

theorem foldl_mergeStep_good :
    ∀ (l acc : List MedicalAnnotation),
      l.Pairwise annLE → GoodRev acc → (∀ x ∈ acc, ∀ y ∈ l, annLE x y) →
      GoodRev (l.foldl mergeStep acc)
  | [], acc, _, hg, _ => hg
  | a :: l, acc, hp, hg, hfwd => by
    rw [List.foldl_cons]
    have hp' := List.pairwise_cons.mp hp
    refine foldl_mergeStep_good l (mergeStep acc a) hp'.2
      (goodRev_mergeStep hg (fun x hx => hfwd x hx a (List.mem_cons_self _ _))) ?_
    intro x hx y hy
    rcases mem_mergeStep hx with rfl | hx'
    · exact hp'.1 y hy
    · exact hfwd x hx' y (List.mem_cons_of_mem _ hy)

/-- The merged output is a chain of separated, sort-ordered annotations. -/
theorem merged_chain (anns : List MedicalAnnotation) :
    ( _merge_overlapping_annotations anns).Chain' mergeRel := by
  unfold _merge_overlapping_annotations
  split
  · simp
  · have hgood : GoodRev ((List.insertionSort annLE anns).foldl mergeStep []) :=
      foldl_mergeStep_good _ []
        ((List.sorted_insertionSort annLE anns))
        (by simp [GoodRev]) (by simp)
    rw [GoodRev] at hgood
    exact List.chain'_reverse.mpr hgood

/-- A separated, sort-ordered chain is pairwise separated. -/
theorem chain_mergeRel_pairwise {l : List MedicalAnnotation}
    (h : l.Chain' mergeRel) : l.Pairwise mergeRel := by
  haveI : IsTrans MedicalAnnotation mergeRel := ⟨fun _ _ _ => mergeRel_trans⟩
  exact List.chain'_iff_pairwise.mp h

/-- When consecutive annotations are strictly separated, every scan step
takes the append branch, so the fold just reverses the list on top of the
accumulator. -/
theorem foldl_mergeStep_sep :
    ∀ (l : List MedicalAnnotation) (z : MedicalAnnotation)
      (rest : List MedicalAnnotation),
      (z :: l).Chain' (fun x y => x.end_pos < y.start_pos) →
      l.foldl mergeStep (z :: rest) = l.reverse ++ z :: rest
  | [], _, _, _ => by simp
  | c :: l, z, rest, h => by
    rw [List.chain'_cons] at h
    have hc : ¬ c.start_pos ≤ z.end_pos := not_le.mpr h.1
    rw [List.foldl_cons]
    have hstep : mergeStep (z :: rest) c = c :: z :: rest := by
      simp [mergeStep, hc]
    rw [hstep, foldl_mergeStep_sep l c (z :: rest) h.2]
    simp

/-- C1.  For every input list of annotations, no two annotations `a`, `b`
in the output of `_merge_overlapping_annotations` satisfy
`a.start_pos < b.end_pos` and `b.start_pos < a.end_pos`; in particular this
holds when a kept annotation was replaced by a higher-confidence
overlapping one during the scan. -/
theorem C1_merge_no_overlap (anns : List MedicalAnnotation) :
    ( _merge_overlapping_annotations anns).Pairwise
      (fun a b => ¬(a.start_pos < b.end_pos ∧ b.start_pos < a.end_pos)) :=
  (chain_mergeRel_pairwise (merged_chain anns)).imp
    (fun h hov => absurd (hov.2.trans h.1) (lt_irrefl _))

/-- C9.  The overlap merge is idempotent: applying
`_merge_overlapping_annotations` to a list it has already produced returns
that list unchanged. -/
theorem C9_merge_idempotent (anns : List MedicalAnnotation) :
    _merge_overlapping_annotations ( _merge_overlapping_annotations anns) =
      _merge_overlapping_annotations anns := by
  have hch := merged_chain anns
  set m := _merge_overlapping_annotations anns with hm
  have hsorted : List.Sorted annLE m := (chain_mergeRel_pairwise hch).imp (fun h => h.2)
  have hsep : m.Chain' (fun x y => x.end_pos < y.start_pos) :=
    hch.imp (fun _ _ h => h.1)
  match hmm : m with
  | [] => simp [_merge_overlapping_annotations]
  | a :: l =>
    rw [_merge_overlapping_annotations, if_neg (by simp)]
    rw [hmm] at hsorted hsep
    rw [List.Sorted.insertionSort_eq hsorted]
    have h0 : (a :: l).foldl mergeStep [] = l.foldl mergeStep [a] := by
      rw [List.foldl_cons]; rfl
    rw [h0, foldl_mergeStep_sep l a [] hsep]
    simp

/-- Counterexample annotations for C6: two annotations whose spans
`[0, 2)` and `[2, 4)` touch but do not overlap. -/
def annC6a : MedicalAnnotation :=
  { text := "异型", start_pos := 0, end_pos := 2,
    annotation_type := AnnotationType.pathology, confidence := mkRat 9 10, metadata := [] }

def annC6b : MedicalAnnotation :=
  { text := "增生", start_pos := 2, end_pos := 4,
    annotation_type := AnnotationType.pathology, confidence := mkRat 9 10, metadata := [] }

/-- Separated annotations used to witness the amended C6. -/
def annC6c : MedicalAnnotation :=
  { text := "坏死", start_pos := 0, end_pos := 2,
    annotation_type := AnnotationType.pathology, confidence := mkRat 9 10, metadata := [] }

def annC6d : MedicalAnnotation :=
  { text := "钙化", start_pos := 3, end_pos := 5,
    annotation_type := AnnotationType.pathology, confidence := mkRat 7 10, metadata := [] }

/-- C6, counterexample.  The claim says annotations with adjacent but
disjoint spans (second start equal to first end) are both retained; the
source's `current.start_pos <= last.end_pos` test treats them as
overlapping, and only one survives. -/
theorem C6_counterexample :
    annC6b.start_pos = annC6a.end_pos ∧
    _merge_overlapping_annotations [annC6a, annC6b] = [annC6a] ∧
    annC6b ∉ _merge_overlapping_annotations [annC6a, annC6b] := by
  decide

/-- C6, amended.  The merge discards an annotation exactly when its start
lies at or before the previous kept annotation's end (the closed interval
`[start_pos, end_pos]`): two sort-ordered annotations are both retained
when the second starts strictly after the first ends, and when the second
starts at or before the first's end (including the touching case) only one
of the two is kept. -/
theorem C6_amended (a b : MedicalAnnotation) (hab : annLE a b) :
    (a.end_pos < b.start_pos →
      _merge_overlapping_annotations [a, b] = [a, b]) ∧
    (b.start_pos ≤ a.end_pos →
      ( _merge_overlapping_annotations [a, b]).length = 1) := by
  have hs : List.insertionSort annLE [a, b] = [a, b] := by
    simp only [List.insertionSort, List.orderedInsert]
    rw [if_pos hab]
  constructor
  · intro hsep
    rw [_merge_overlapping_annotations, if_neg (by simp), hs]
    have h0 : ([a, b] : List MedicalAnnotation).foldl mergeStep [] =
        mergeStep [a] b := by rfl
    rw [h0, mergeStep, if_neg (not_le.mpr hsep)]
    rfl
  · intro htouch
    rw [_merge_overlapping_annotations, if_neg (by simp), hs]
    have h0 : ([a, b] : List MedicalAnnotation).foldl mergeStep [] =
        mergeStep [a] b := by rfl
    rw [h0, mergeStep, if_pos htouch]
    split <;> rfl

/-- Witness for the amended C6, at concrete annotations: the separated pair
`annC6c`, `annC6d` is fully retained, while the touching pair `annC6a`,
`annC6b` collapses to a single annotation. -/
theorem C6_amended_witness :
    _merge_overlapping_annotations [annC6c, annC6d] = [annC6c, annC6d] ∧
    ( _merge_overlapping_annotations [annC6a, annC6b]).length = 1 :=
  ⟨(C6_amended annC6c annC6d (by decide)).1 (by decide),
   (C6_amended annC6a annC6b (by decide)).2 (by decide)⟩

/-! ### Data cleaner (`data_cleaner.py`)

The noise patterns of `_remove_noise` are concrete regular expressions
(`[图 N]`, `[表 N]`, `第 N 页`, `参考文献[N]`, `见附录 X`, runs of
whitespace); each is modelled by a deterministic matcher returning the rest
of the input after the match (the patterns are such that greedy matching
needs no backtracking), and `scanSub` replays `re.sub(pattern, ' ', text)`:
scan left to right, replace each leftmost match by one space, continue
after it. -/

/-- One `re.sub(p, ' ', s)` pass: `m` returns the suffix after a match at
the current position; the match is replaced by `' '`.  Fuel is the input
length (every step consumes at least one character). -/
def scanSubAux (m : List Char → Option (List Char)) : Nat → List Char → List Char
  | 0, l => l
  | _ + 1, [] => []
  | fuel + 1, c :: cs =>
    match m (c :: cs) with
    | some rest =>
      if rest.length < cs.length + 1 then ' ' :: scanSubAux m fuel rest
      else c :: scanSubAux m fuel cs
    | none => c :: scanSubAux m fuel cs

def scanSub (m : List Char → Option (List Char)) (l : List Char) : List Char :=
  scanSubAux m l.length l

/-- Eat one literal character. -/
def eatLit (c : Char) : List Char → Option (List Char)
  | x :: xs => if x = c then some xs else none
  | [] => none

/-- Eat a literal string. -/
def eatLits : List Char → List Char → Option (List Char)
  | [], l => some l
  | c :: cs, l => (eatLit c l).bind (eatLits cs)

/-- Eat `\d+`. -/
def eatDigits1 (l : List Char) : Option (List Char) :=
  let r := l.dropWhile isPyDigit
  if r.length < l.length then some r else none

/-- Matcher for `\[图\s*\d+[-\.\d]*\]`. -/
def matchFigRef (l : List Char) : Option (List Char) := do
  let l ← eatLits ['[', '图'] l
  let l := l.dropWhile isPySpace
  let l ← eatDigits1 l
  let l := l.dropWhile (fun c => c = '-' || c = '.' || isPyDigit c)
  eatLit ']' l

/-- Matcher for `\[表\s*\d+[-\.\d]*\]`. -/
def matchTabRef (l : List Char) : Option (List Char) := do
  let l ← eatLits ['[', '表'] l
  let l := l.dropWhile isPySpace
  let l ← eatDigits1 l
  let l := l.dropWhile (fun c => c = '-' || c = '.' || isPyDigit c)
  eatLit ']' l

/-- Matcher for `第\s*\d+\s*页`. -/
def matchPageNo (l : List Char) : Option (List Char) := do
  let l ← eatLit '第' l
  let l := l.dropWhile isPySpace
  let l ← eatDigits1 l
  let l := l.dropWhile isPySpace
  eatLit '页' l

/-- Matcher for `参考文献\s*\[\d+\]`. -/
def matchCiteRef (l : List Char) : Option (List Char) := do
  let l ← eatLits ['参', '考', '文', '献'] l
  let l := l.dropWhile isPySpace
  let l ← eatLit '[' l
  let l ← eatDigits1 l
  eatLit ']' l

/-- Matcher for `见附录\s*[A-Z]`. -/
def matchAppendixRef (l : List Char) : Option (List Char) := do
  let l ← eatLits ['见', '附', '录'] l
  let l := l.dropWhile isPySpace
  match l with
  | x :: xs => if 'A' ≤ x && x ≤ 'Z' then some xs else none
  | [] => none

/-- Matcher for a run of at least `k` characters satisfying `p` (greedy). -/
def matchRun (p : Char → Bool) (k : Nat) (l : List Char) : Option (List Char) :=
  let n := countLeading p l
  if k ≤ n && 0 < n then some (l.drop n) else none

/-- `_remove_noise` (data_cleaner.py:99-109): the seven noise-pattern
passes, then `\s+ -> ' '`, then `strip()`. -/
def _remove_noise (l : List Char) : List Char :=
  let l := scanSub matchFigRef l
  let l := scanSub matchTabRef l
  let l := scanSub matchPageNo l
  let l := scanSub matchCiteRef l
  let l := scanSub matchAppendixRef l
  let l := scanSub (matchRun isPySpace 3) l
  let l := scanSub (matchRun (fun c => c = '\n') 3) l
  let l := scanSub (matchRun isPySpace 1) l
  pyStrip l

/-- `_normalize_format` (data_cleaner.py:111-123): the character classes
normalized there are each singletons up to the ASCII variant, so the pass
is a character map. -/
def normChar (c : Char) : Char :=
  if c = ',' then '，'
  else if c = '(' then '（'
  else if c = ')' then '）'
  else c

def _normalize_format (l : List Char) : List Char := l.map normChar

/-! Term extraction (`_extract_medical_terms`): for each category,
`re.findall('[^，。；：\s]*(?:alt1|alt2|...)[^，。；：\s]*', text)`,
keeping matches of length at least 2, deduplicated.  Matching at a
position tries the longest possible `[^...]*` prefix first and shortens it
until an alternative fits (the greedy backtracking of the regex engine);
alternatives are tried in listed order. -/

/-- A character the term patterns cannot cross. -/
def termDelim (c : Char) : Bool :=
  c = '，' || c = '。' || c = '；' || c = '：' || isPySpace c

/-- First alternative that is a prefix of `l`, returning its length. -/
def tryAlts : List (List Char) → List Char → Option Nat
  | [], _ => none
  | a :: rest, l => if a.isPrefixOf l then some a.length else tryAlts rest l

/-- Try prefix lengths `k, k-1, ..., 0`; on success return the full match
length (prefix + alternative + greedy non-delimiter suffix). -/
def findTermAt (alts : List (List Char)) (l : List Char) : Nat → Option Nat
  | 0 =>
    (tryAlts alts l).map
      (fun m => m + countLeading (fun c => !termDelim c) (l.drop m))
  | k + 1 =>
    match tryAlts alts (l.drop (k + 1)) with
    | some m =>
      some ((k + 1) + m + countLeading (fun c => !termDelim c) (l.drop (k + 1 + m)))
    | none => findTermAt alts l k

/-- Match the term pattern at the start of `l`, returning the match length. -/
def matchTerm (alts : List (List Char)) (l : List Char) : Option Nat :=
  findTermAt alts l (countLeading (fun c => !termDelim c) l)

/-- `re.findall` scanning for the term pattern: leftmost matches,
non-overlapping, resuming after each match. -/
def findAllAux (alts : List (List Char)) : Nat → List Char → List (List Char)
  | 0, _ => []
  | _ + 1, [] => []
  | fuel + 1, c :: cs =>
    match matchTerm alts (c :: cs) with
    | some n =>
      if n = 0 then findAllAux alts fuel cs
      else (c :: cs).take n :: findAllAux alts fuel ((c :: cs).drop n)
    | none => findAllAux alts fuel cs

def pyFindAllTerms (alts : List (List Char)) (s : List Char) : List (List Char) :=
  findAllAux alts s.length s

/-- The five medical-term alternation lists of `data_cleaner.py`. -/
def diseasesAlts : List String :=
  ["癌", "肿瘤", "炎", "症", "病", "综合征", "缺陷", "畸形", "损伤", "破裂", "出血", "梗死", "坏死"]

def anatomyAlts : List String :=
  ["心脏", "肺", "肝", "肾", "脑", "胃", "肠", "骨", "肌肉", "神经", "血管", "淋巴"]

def pathologyAlts : List String :=
  ["良性", "恶性", "转移", "浸润", "增生", "萎缩", "纤维化", "钙化", "囊性", "实性"]

def diagnosisAlts : List String :=
  ["诊断", "鉴别诊断", "临床表现", "症状", "体征", "检查", "治疗", "预后"]

def histologyAlts : List String :=
  ["细胞", "组织", "上皮", "间质", "胶原", "弹性纤维", "血管", "神经纤维"]

/-- One category of `_extract_medical_terms`: find all matches, keep those
of length at least 2, deduplicate (Python's `list(set(...))` order is
interpreter-defined; first occurrence is kept here and only the count is
relied upon). -/
def extractCategory (alts : List String) (s : List Char) : List String :=
  (((pyFindAllTerms (alts.map (·.data)) s).filter
      (fun m => 2 ≤ m.length)).map (fun m => String.mk m)).eraseDups

/-- `_extract_medical_terms` (data_cleaner.py:125-135), as the insertion
ordered category map of the source. -/
def _extract_medical_terms (s : List Char) : List (String × List String) :=
  [("diseases", extractCategory diseasesAlts s),
   ("anatomy", extractCategory anatomyAlts s),
   ("pathology", extractCategory pathologyAlts s),
   ("diagnosis", extractCategory diagnosisAlts s),
   ("histology", extractCategory histologyAlts s)]

/-- `_classify_segment` (data_cleaner.py:159-172). -/
def _classify_segment (s : List Char) : String :=
  if listContainsSub "定义".data s || listContainsSub "概念".data s
      || listContainsSub "是指".data s then "definition"
  else if listContainsSub "症状".data s || listContainsSub "表现".data s
      || listContainsSub "特征".data s then "symptoms"
  else if listContainsSub "诊断".data s || listContainsSub "检查".data s
      || listContainsSub "鉴别".data s then "diagnosis"
  else if listContainsSub "治疗".data s || listContainsSub "用药".data s
      || listContainsSub "手术".data s then "treatment"
  else if listContainsSub "病因".data s || listContainsSub "发病机制".data s then "etiology"
  else "general"

/-- A sentence segment produced by `_segment_text`. -/
structure TextSegment where
  id : Nat
  content : String
  length : Nat
  medical_terms : List (String × List String)
  segment_type : String
deriving DecidableEq

/-- Enumerated segmentation: `i` is the index within the raw sentence
split (the source enumerates before filtering). -/
def segmentAux : Nat → List (List Char) → List TextSegment
  | _, [] => []
  | i, sent :: rest =>
    let st := pyStrip sent
    if st.length < 10 then segmentAux (i + 1) rest
    else
      { id := i, content := String.mk st, length := st.length,
        medical_terms := _extract_medical_terms st,
        segment_type := _classify_segment st } :: segmentAux (i + 1) rest

/-- `_segment_text` (data_cleaner.py:137-157): split on `[。！？]`, strip,
drop sentences shorter than 10 characters. -/
def _segment_text (s : List Char) : List TextSegment :=
  segmentAux 0 (splitOnDelims (fun c => c = '。' || c = '！' || c = '？') s)

/-- The structure indicators of `_assess_quality`. -/
def structureIndicators : List String := ["定义", "症状", "诊断", "治疗"]

/-- `_assess_quality` (data_cleaner.py:174-192): length score (up to 30),
term-richness score (up to 40), structure score (10 per indicator, capped
at 30), total divided by 100 and rounded to 2 decimals. -/
def _assess_quality (s : List Char) (medical_terms : List (String × List String)) : ℚ :=
  let length_score : ℚ := min (qmul (qdiv (s.length : ℚ) 1000) 30) 30
  let total_terms : Nat := (medical_terms.map (fun p => p.2.length)).sum
  let terms_score : ℚ := min (qmul (qdiv (total_terms : ℚ) 20) 40) 40
  let structure_score : ℚ :=
    (10 * ((structureIndicators.filter (fun w => listContainsSub w.data s)).length : ℚ))
  let score : ℚ := qadd (qadd length_score terms_score) (min structure_score 30)
  pyRound (qdiv score 100) 2

/-- The result record of `clean_medical_text`. -/
structure CleaningResult where
  success : Bool
  original_length : Nat
  cleaned_length : Nat
  cleaned_text : String
  medical_terms : List (String × List String)
  segments : List TextSegment
  quality_score : ℚ
  noise_removed : Int
  medical_terms_count : Nat
  segments_count : Nat
deriving DecidableEq

/-- `clean_medical_text` (data_cleaner.py:43-97), success path (the
`except` branch of the source is unreachable in this total model; it would
echo the input back with score 0, which also satisfies the stated
bounds). -/
def clean_medical_text (text : String) : CleaningResult :=
  let original := text.data
  let cleaned := _normalize_format (_remove_noise original)
  let medical_terms := _extract_medical_terms cleaned
  let segments := _segment_text cleaned
  let quality_score := _assess_quality cleaned medical_terms
  { success := true,
    original_length := original.length,
    cleaned_length := cleaned.length,
    cleaned_text := String.mk cleaned,
    medical_terms := medical_terms,
    segments := segments,
    quality_score := quality_score,
    noise_removed := (original.length : Int) - (cleaned.length : Int),
    medical_terms_count := (medical_terms.map (fun p => p.2.length)).sum,
    segments_count := segments.length }

/-! Length and range facts about the cleaner. -/

theorem dropWhile_len_le {α : Type} (p : α → Bool) :
    ∀ l : List α, (l.dropWhile p).length ≤ l.length
  | [] => le_refl _
  | c :: cs => by
    rw [List.dropWhile]
    split
    · exact (dropWhile_len_le p cs).trans (Nat.le_succ _)
    · exact le_refl _

theorem pyStrip_length_le (l : List Char) : (pyStrip l).length ≤ l.length := by
  rw [pyStrip, List.length_reverse]
  calc ((l.dropWhile isPySpace).reverse.dropWhile isPySpace).length
      ≤ (l.dropWhile isPySpace).reverse.length := dropWhile_len_le _ _
    _ = (l.dropWhile isPySpace).length := List.length_reverse _
    _ ≤ l.length := dropWhile_len_le _ _

theorem scanSubAux_length_le (m : List Char → Option (List Char)) :
    ∀ fuel l, (scanSubAux m fuel l).length ≤ l.length
  | 0, _ => le_refl _
  | _ + 1, [] => le_refl _
  | fuel + 1, c :: cs => by
    rw [scanSubAux]
    match hm : m (c :: cs) with
    | some rest =>
      simp only
      split
      · rename_i hlt
        have h1 : rest.length ≤ cs.length := Nat.lt_succ_iff.mp hlt
        simpa [List.length_cons] using
          Nat.succ_le_succ ((scanSubAux_length_le m fuel rest).trans h1)
      · simpa [List.length_cons] using
          Nat.succ_le_succ (scanSubAux_length_le m fuel cs)
    | none =>
      simpa [List.length_cons] using
        Nat.succ_le_succ (scanSubAux_length_le m fuel cs)

theorem scanSub_length_le (m : List Char → Option (List Char)) (l : List Char) :
    (scanSub m l).length ≤ l.length :=
  scanSubAux_length_le m l.length l

theorem remove_noise_length_le (l : List Char) :
    ( _remove_noise l).length ≤ l.length := by
  rw [_remove_noise]
  refine (pyStrip_length_le _).trans ?_
  refine (scanSub_length_le _ _).trans ?_
  refine (scanSub_length_le _ _).trans ?_
  refine (scanSub_length_le _ _).trans ?_
  refine (scanSub_length_le _ _).trans ?_
  refine (scanSub_length_le _ _).trans ?_
  refine (scanSub_length_le _ _).trans ?_
  refine (scanSub_length_le _ _).trans ?_
  exact scanSub_length_le _ _

/-- The rational literal `mkRat 1 2` is one half. -/
theorem mkRat_one_two : (mkRat 1 2 : ℚ) = 1 / 2 := by
  rw [Rat.mkRat_eq_divInt, Rat.divInt_eq_div]
  norm_num

theorem roundHalfEven_nonneg {s : ℚ} (h : 0 ≤ s) : 0 ≤ roundHalfEven s := by
  have hm : (0 : ℤ) ≤ ⌊s⌋ := Int.floor_nonneg.mpr h
  rw [roundHalfEven]
  split
  · exact hm
  · split
    · exact hm.trans (Int.le.intro 1 rfl)
    · split
      · exact hm
      · exact hm.trans (Int.le.intro 1 rfl)

theorem roundHalfEven_le {s : ℚ} {k : ℤ} (h : s ≤ (k : ℚ)) : roundHalfEven s ≤ k := by
  have hm : ⌊s⌋ ≤ k := by
    have := Int.floor_le_floor h
    rwa [Int.floor_intCast] at this
  rw [roundHalfEven]
  split
  · exact hm
  · rename_i hf
    rw [qsub_eq, not_lt, mkRat_one_two] at hf
    have hmlt : ⌊s⌋ < k := by
      have h1 : (⌊s⌋ : ℚ) + 1 / 2 ≤ s := by linarith
      have h2 : (⌊s⌋ : ℚ) < (k : ℚ) := by linarith
      exact_mod_cast h2
    split
    · exact hmlt
    · split
      · exact hm
      · exact hmlt

theorem pyRound2_mem_unit {q : ℚ} (h0 : 0 ≤ q) (h1 : q ≤ 1) :
    0 ≤ pyRound q 2 ∧ pyRound q 2 ≤ 1 := by
  rw [pyRound, qdiv_eq, qmul_eq]
  have hcast : (((10 ^ 2 : Nat) : ℚ)) = 100 := by norm_num
  rw [hcast]
  have hs0 : 0 ≤ q * 100 := by positivity
  have hs1 : q * 100 ≤ ((100 : ℤ) : ℚ) := by push_cast; linarith
  have hr0 : (0 : ℤ) ≤ roundHalfEven (q * 100) := roundHalfEven_nonneg hs0
  have hr1 : roundHalfEven (q * 100) ≤ 100 := roundHalfEven_le hs1
  constructor
  · apply div_nonneg _ (by norm_num)
    exact_mod_cast hr0
  · rw [div_le_one (by norm_num)]
    exact_mod_cast hr1

theorem assess_quality_mem_unit (s : List Char) (terms : List (String × List String)) :
    0 ≤ _assess_quality s terms ∧ _assess_quality s terms ≤ 1 := by
  rw [_assess_quality]
  simp only [qadd_eq, qmul_eq, qdiv_eq]
  have hA0 : (0 : ℚ) ≤ min ((s.length : ℚ) / 1000 * 30) 30 :=
    le_min (by positivity) (by norm_num)
  have hA1 : min ((s.length : ℚ) / 1000 * 30) 30 ≤ 30 := min_le_right _ _
  have hB0 : (0 : ℚ) ≤
      min ((((terms.map (fun p => p.2.length)).sum : ℕ) : ℚ) / 20 * 40) 40 :=
    le_min (by positivity) (by norm_num)
  have hB1 : min ((((terms.map (fun p => p.2.length)).sum : ℕ) : ℚ) / 20 * 40) 40 ≤ 40 :=
    min_le_right _ _
  have hC0 : (0 : ℚ) ≤ min
      (10 * (((structureIndicators.filter (fun w => listContainsSub w.data s)).length : ℕ) : ℚ))
      30 := le_min (by positivity) (by norm_num)
  have hC1 : min
      (10 * (((structureIndicators.filter (fun w => listContainsSub w.data s)).length : ℕ) : ℚ))
      30 ≤ 30 := min_le_right _ _
  refine pyRound2_mem_unit ?_ ?_
  · exact div_nonneg (by linarith) (by norm_num)
  · rw [div_le_one (by norm_num)]
    linarith

/-- C4.  For every input text `T`, the cleaner returns text no longer than
`T` and a quality score in `[0, 1]`. -/
theorem C4_clean_bounds (text : String) :
    (clean_medical_text text).cleaned_text.length ≤ text.length ∧
    0 ≤ (clean_medical_text text).quality_score ∧
    (clean_medical_text text).quality_score ≤ 1 := by
  refine ⟨?_, ?_, ?_⟩
  · show ( _normalize_format ( _remove_noise text.data)).length ≤ text.data.length
    rw [_normalize_format, List.length_map]
    exact remove_noise_length_le _
  · exact (assess_quality_mem_unit _ _).1
  · exact (assess_quality_mem_unit _ _).2

/-- The C5 scenario input. -/
def c5Input : String := "第3页 肺癌是常见恶性肿瘤。患者出现咳嗽症状。"

/-- C5, counterexample.  The claim says the segments list has exactly 2
entries; both sentences of the cleaned text are shorter than the 10
character segment filter (9 and 8 characters), so the source produces an
empty segments list. -/
theorem C5_counterexample :
    (clean_medical_text c5Input).segments.length = 0 ∧ (0 : Nat) ≠ 2 := by
  constructor
  · decide
  · decide

/-- C5, amended.  On the scenario input the page marker is removed and the
cleaned text contains both sentences, but the segments list is empty (the
two sentences have 9 and 8 characters, under the 10-character filter); the
second sentence, had it survived the filter, classifies as `symptoms`. -/
theorem C5_amended :
    (clean_medical_text c5Input).cleaned_text = "肺癌是常见恶性肿瘤。患者出现咳嗽症状。" ∧
    strContains (clean_medical_text c5Input).cleaned_text "肺癌是常见恶性肿瘤" = true ∧
    strContains (clean_medical_text c5Input).cleaned_text "患者出现咳嗽症状" = true ∧
    (clean_medical_text c5Input).segments = [] ∧
    _classify_segment "患者出现咳嗽症状".data = "symptoms" := by
  refine ⟨by decide, by decide, by decide, by decide, by decide⟩

/-! ### Knowledge base integrator (`knowledge_base_integrator.py`)

`_convert_qa_to_documents` (lines 229-311), `integrate_qa_dataset`
(106-142) and `_direct_bulk_index` (144-227).  An input element is either
a usable dict (possibly with fields missing) or `invalid` (a non-dict or a
string that fails to parse as JSON); both invalid elements and dicts
missing `question`/`answer` are skipped.  The Elasticsearch client is an
injected response value; whether its `bulk` endpoint was invoked is
returned alongside the result. -/

/-- The fields of one Q&A dict that the converter reads. -/
structure QAPairFields where
  question : Option String
  answer : Option String
  difficulty_level : Option String
  question_type : Option String
  medical_domain : Option String
  quality_score : Option ℚ
  keywords : List String
  medical_terms : List String
deriving DecidableEq

/-- One element of the `qa_dataset` list. -/
inductive QAItem where
  | invalid
  | pair (fields : QAPairFields)
deriving DecidableEq

/-- Does the item pass the converter's required-field validation? -/
def hasRequiredFields : QAItem → Bool
  | .invalid => false
  | .pair f => f.question.isSome && f.answer.isSome

/-- Metadata of a converted document (`create_time` is wall-clock time and
is left out of the embedding). -/
structure DocMetadata where
  is_question : Bool
  related_answer_id : Option String
  related_question_id : Option String
  quality_score : ℚ
  keywords : List String
  answer_length : Option Nat
  medical_terms : Option (List String)
deriving DecidableEq

/-- A converted Elasticsearch document. -/
structure KnowledgeDocument where
  id : String
  title : String
  content : String
  document_type : String
  qa_pair_id : Nat
  difficulty_level : String
  question_type : String
  medical_domain : String
  source : String
  metadata : DocMetadata
deriving DecidableEq

/-- Python `s[:50]`. -/
def pyTake50 (s : String) : String := String.mk (s.data.take 50)

/-- The question document for pair `i`. -/
def questionDoc (i : Nat) (f : QAPairFields) : KnowledgeDocument :=
  { id := "qa_" ++ toString i ++ "_question",
    title := "医疗问题: " ++ pyTake50 (f.question.getD "") ++ "...",
    content := f.question.getD "",
    document_type := "medical_question",
    qa_pair_id := i,
    difficulty_level := f.difficulty_level.getD "medium",
    question_type := f.question_type.getD "general",
    medical_domain := f.medical_domain.getD "pathology",
    source := "medical_data_engineering",
    metadata :=
      { is_question := true,
        related_answer_id := some ("qa_" ++ toString i ++ "_answer"),
        related_question_id := none,
        quality_score := f.quality_score.getD (mkRat 1 2),
        keywords := f.keywords,
        answer_length := none,
        medical_terms := none } }

/-- The answer document for pair `i`. -/
def answerDoc (i : Nat) (f : QAPairFields) : KnowledgeDocument :=
  { id := "qa_" ++ toString i ++ "_answer",
    title := "医疗答案: " ++ pyTake50 (f.question.getD "") ++ "...",
    content := f.answer.getD "",
    document_type := "medical_answer",
    qa_pair_id := i,
    difficulty_level := f.difficulty_level.getD "medium",
    question_type := f.question_type.getD "general",
    medical_domain := f.medical_domain.getD "pathology",
    source := "medical_data_engineering",
    metadata :=
      { is_question := false,
        related_answer_id := none,
        related_question_id := some ("qa_" ++ toString i ++ "_question"),
        quality_score := f.quality_score.getD (mkRat 1 2),
        keywords := f.keywords,
        answer_length := some (f.answer.getD "").data.length,
        medical_terms := some f.medical_terms } }

/-- The enumerated conversion loop; `i` is the `enumerate` index, counting
skipped items too. -/
def convertAux : Nat → List QAItem → List KnowledgeDocument
  | _, [] => []
  | i, it :: rest =>
    match it with
    | .invalid => convertAux (i + 1) rest
    | .pair f =>
      if f.question.isSome && f.answer.isSome then
        questionDoc i f :: answerDoc i f :: convertAux (i + 1) rest
      else
        convertAux (i + 1) rest

/-- `_convert_qa_to_documents` (knowledge_base_integrator.py:229-311). -/
def _convert_qa_to_documents (qa_dataset : List QAItem) : List KnowledgeDocument :=
  convertAux 0 qa_dataset

/-- Python `str.lower()` (ASCII case fold, which covers the index names
this code builds). -/
def pyLower (s : String) : String := String.mk (s.data.map Char.toLower)

/-- One item of an Elasticsearch bulk response. -/
structure BulkItemResp where
  status : Nat
deriving DecidableEq

/-- The injected Elasticsearch bulk response. -/
structure BulkResponse where
  errors : Bool
  items : List BulkItemResp
deriving DecidableEq

/-- The result dict of the integrator calls. -/
structure IntegrationResult where
  success : Bool
  error : Option String
  total_processed : Nat
  total_documents_created : Option Nat
  total_indexed : Option Nat
  index_name : String
deriving DecidableEq

/-- `_direct_bulk_index` (knowledge_base_integrator.py:144-227); the
second component records whether the Elasticsearch bulk endpoint was
invoked.  The `operations` list holds two entries per document, so the
source's second emptiness guard is unreachable. -/
def _direct_bulk_index (resp : BulkResponse) (documents : List KnowledgeDocument)
    (index_name : String) : IntegrationResult × Bool :=
  let index_name := pyLower index_name
  if documents.isEmpty then
    ({ success := false, error := some "没有有效的文档可以索引", total_processed := 0,
       total_documents_created := none, total_indexed := none,
       index_name := index_name }, false)
  else
    let total_indexed :=
      (resp.items.filter (fun it => it.status = 200 || it.status = 201)).length
    ({ success := true, error := none,
       total_processed := documents.length / 2,
       total_documents_created := some documents.length,
       total_indexed := some total_indexed,
       index_name := index_name }, true)

/-- `integrate_qa_dataset` (knowledge_base_integrator.py:106-142). -/
def integrate_qa_dataset (resp : BulkResponse) (qa_dataset : List QAItem)
    (index_name : String) : IntegrationResult × Bool :=
  let index_name := pyLower index_name
  if qa_dataset.isEmpty then
    ({ success := false, error := some "Q&A数据集为空", total_processed := 0,
       total_documents_created := none, total_indexed := none,
       index_name := index_name }, false)
  else
    _direct_bulk_index resp ( _convert_qa_to_documents qa_dataset) index_name

theorem convertAux_length :
    ∀ (items : List QAItem) (j : Nat),
      (∀ it ∈ items, hasRequiredFields it = true) →
      (convertAux j items).length = 2 * items.length
  | [], _, _ => rfl
  | it :: rest, j, hall => by
    match it with
    | .invalid =>
      exact absurd (hall _ (List.mem_cons_self _ _)) (by simp [hasRequiredFields])
    | .pair f =>
      have hf : hasRequiredFields (QAItem.pair f) = true :=
        hall _ (List.mem_cons_self _ _)
      simp only [hasRequiredFields] at hf
      rw [convertAux, if_pos hf]
      rw [List.length_cons, List.length_cons,
        convertAux_length rest (j + 1) (fun x hx => hall x (List.mem_cons_of_mem _ hx)),
        List.length_cons]
      ring

theorem convertAux_get :
    ∀ (items : List QAItem) (j i : Nat) (hi : i < items.length),
      (∀ it ∈ items, hasRequiredFields it = true) →
      ∃ f, items.get ⟨i, hi⟩ = QAItem.pair f ∧
        (convertAux j items).get? (2 * i) = some (questionDoc (j + i) f) ∧
        (convertAux j items).get? (2 * i + 1) = some (answerDoc (j + i) f)
  | [], _, i, hi, _ => absurd hi (Nat.not_lt_zero i)
  | it :: rest, j, i, hi, hall => by
    match it with
    | .invalid =>
      exact absurd (hall _ (List.mem_cons_self _ _)) (by simp [hasRequiredFields])
    | .pair f =>
      have hf : hasRequiredFields (QAItem.pair f) = true :=
        hall _ (List.mem_cons_self _ _)
      simp only [hasRequiredFields] at hf
      match i with
      | 0 =>
        refine ⟨f, rfl, ?_, ?_⟩ <;> rw [convertAux, if_pos hf] <;> rfl
      | i + 1 =>
        have hi' : i < rest.length := Nat.lt_of_succ_lt_succ hi
        obtain ⟨g, hg, hq, ha⟩ :=
          convertAux_get rest (j + 1) i hi'
            (fun x hx => hall x (List.mem_cons_of_mem _ hx))
        refine ⟨g, hg, ?_, ?_⟩
        · rw [convertAux, if_pos hf]
          have harith : 2 * (i + 1) = (2 * i) + 1 + 1 := by ring
          rw [harith, List.get?_cons_succ, List.get?_cons_succ, hq]
          congr 2
          omega
        · rw [convertAux, if_pos hf]
          have harith : 2 * (i + 1) + 1 = (2 * i + 1) + 1 + 1 := by ring
          rw [harith, List.get?_cons_succ, List.get?_cons_succ, ha]
          congr 2
          omega

/-- C2.  A dataset in which every pair carries both `question` and
`answer` converts to exactly `2N` documents: at positions `2i` and
`2i + 1` sit the question document `qa_{i}_question` (whose metadata
back-references `qa_{i}_answer`) and the answer document `qa_{i}_answer`
(back-referencing `qa_{i}_question`), both with `qa_pair_id = i`. -/
theorem C2_convert_pairing (items : List QAItem)
    (hall : ∀ it ∈ items, hasRequiredFields it = true) :
    ( _convert_qa_to_documents items).length = 2 * items.length ∧
    ∀ i (hi : i < items.length), ∃ q a,
      ( _convert_qa_to_documents items).get? (2 * i) = some q ∧
      ( _convert_qa_to_documents items).get? (2 * i + 1) = some a ∧
      q.id = "qa_" ++ toString i ++ "_question" ∧
      q.metadata.related_answer_id = some ("qa_" ++ toString i ++ "_answer") ∧
      q.qa_pair_id = i ∧
      a.id = "qa_" ++ toString i ++ "_answer" ∧
      a.metadata.related_question_id = some ("qa_" ++ toString i ++ "_question") ∧
      a.qa_pair_id = i := by
  constructor
  · exact convertAux_length items 0 hall
  · intro i hi
    obtain ⟨f, _, hq, ha⟩ := convertAux_get items 0 i hi hall
    refine ⟨questionDoc i f, answerDoc i f, ?_, ?_, rfl, rfl, rfl, rfl, rfl, rfl⟩
    · simpa using hq
    · simpa using ha

/-- A complete two-pair dataset used to witness C2. -/
def c2Items : List QAItem :=
  [QAItem.pair
    { question := some "什么是腺癌？", answer := some "腺癌是一种恶性肿瘤。",
      difficulty_level := some "easy", question_type := some "definition",
      medical_domain := none, quality_score := some (mkRat 4 5),
      keywords := ["腺癌"], medical_terms := [] },
   QAItem.pair
    { question := some "如何诊断腺癌？", answer := some "需要结合检查。",
      difficulty_level := none, question_type := none,
      medical_domain := none, quality_score := none,
      keywords := [], medical_terms := ["腺癌"] }]

/-- Witness for C2 at a concrete dataset of 2 complete pairs. -/
theorem C2_convert_pairing_witness :
    ( _convert_qa_to_documents c2Items).length = 2 * c2Items.length ∧
    ∀ i (hi : i < c2Items.length), ∃ q a,
      ( _convert_qa_to_documents c2Items).get? (2 * i) = some q ∧
      ( _convert_qa_to_documents c2Items).get? (2 * i + 1) = some a ∧
      q.id = "qa_" ++ toString i ++ "_question" ∧
      q.metadata.related_answer_id = some ("qa_" ++ toString i ++ "_answer") ∧
      q.qa_pair_id = i ∧
      a.id = "qa_" ++ toString i ++ "_answer" ∧
      a.metadata.related_question_id = some ("qa_" ++ toString i ++ "_question") ∧
      a.qa_pair_id = i :=
  C2_convert_pairing c2Items (by decide)

/-- C10.  Integrating an empty dataset returns a structured failure with
`success = false` and `total_processed = 0` without invoking the bulk
endpoint; on any dataset the bulk endpoint is invoked exactly when the
converted document list is non-empty. -/
theorem C10_empty_dataset_no_bulk (resp : BulkResponse) (ds : List QAItem)
    (name : String) :
    (integrate_qa_dataset resp [] name).1.success = false ∧
    (integrate_qa_dataset resp [] name).1.total_processed = 0 ∧
    (integrate_qa_dataset resp [] name).2 = false ∧
    (integrate_qa_dataset resp ds name).2 =
      !( _convert_qa_to_documents ds).isEmpty := by
  refine ⟨rfl, rfl, rfl, ?_⟩
  match ds with
  | [] => rfl
  | it :: rest =>
    cases hdoc : ( _convert_qa_to_documents (it :: rest)).isEmpty <;>
      simp [integrate_qa_dataset, _direct_bulk_index, hdoc]

/-! ### MCP tool dispatch (`local_mcp_service.py`)

`medical_data_cleaner` (lines 169-217): the three string parameters
default to `""`; the tool picks the first truthy one in the order
`batch_file_paths`, `file_path`, `text_content` and only raises the
validation error when all three are empty. -/

/-- What the `medical_data_cleaner` tool decides to do. -/
inductive CleanerDispatch where
  | batchClean (paths : List String)
  | cleanFile (path : String)
  | cleanText (text : String)
  | validationError
deriving DecidableEq

/-- `[path.strip() for path in batch_file_paths.split(',') if path.strip()]`. -/
def parseBatchPaths (batch_file_paths : String) : List String :=
  ((splitOnDelims (fun c => c = ',') batch_file_paths.data).map
      (fun p => pyStrip p)).filterMap
    (fun p => if p.isEmpty then none else some (String.mk p))

/-- The input dispatch of `medical_data_cleaner`
(local_mcp_service.py:185-217). -/
def medical_data_cleaner_dispatch (text_content file_path batch_file_paths : String) :
    CleanerDispatch :=
  if batch_file_paths ≠ "" then .batchClean (parseBatchPaths batch_file_paths)
  else if file_path ≠ "" then .cleanFile file_path
  else if text_content ≠ "" then .cleanText text_content
  else .validationError

/-- C8, counterexample.  Supplying two of the three inputs does not yield
a validation error: the tool silently runs the batch path. -/
theorem C8_counterexample :
    medical_data_cleaner_dispatch "病理文本" "" "a.txt" =
      CleanerDispatch.batchClean ["a.txt"] ∧
    medical_data_cleaner_dispatch "病理文本" "" "a.txt" ≠
      CleanerDispatch.validationError := by
  constructor
  · decide
  · decide

/-- C8, amended.  The validation error fires exactly when none of the
three inputs is supplied; when several are supplied the tool performs one
cleaning, chosen by the fixed priority `batch_file_paths`, then
`file_path`, then `text_content`. -/
theorem C8_amended (text_content file_path batch_file_paths : String) :
    (medical_data_cleaner_dispatch text_content file_path batch_file_paths =
        CleanerDispatch.validationError ↔
      text_content = "" ∧ file_path = "" ∧ batch_file_paths = "") ∧
    (batch_file_paths ≠ "" →
      medical_data_cleaner_dispatch text_content file_path batch_file_paths =
        CleanerDispatch.batchClean (parseBatchPaths batch_file_paths)) ∧
    (batch_file_paths = "" → file_path ≠ "" →
      medical_data_cleaner_dispatch text_content file_path batch_file_paths =
        CleanerDispatch.cleanFile file_path) ∧
    (batch_file_paths = "" → file_path = "" → text_content ≠ "" →
      medical_data_cleaner_dispatch text_content file_path batch_file_paths =
        CleanerDispatch.cleanText text_content) := by
  refine ⟨?_, ?_, ?_, ?_⟩
  · constructor
    · intro h
      by_cases hb : batch_file_paths = ""
      · by_cases hf : file_path = ""
        · by_cases ht : text_content = ""
          · exact ⟨ht, hf, hb⟩
          · rw [medical_data_cleaner_dispatch, if_neg (by simp [hb]),
              if_neg (by simp [hf]), if_pos ht] at h
            exact absurd h (by simp)
        · rw [medical_data_cleaner_dispatch, if_neg (by simp [hb]), if_pos hf] at h
          exact absurd h (by simp)
      · rw [medical_data_cleaner_dispatch, if_pos hb] at h
        exact absurd h (by simp)
    · rintro ⟨ht, hf, hb⟩
      rw [medical_data_cleaner_dispatch, if_neg (by simp [hb]),
        if_neg (by simp [hf]), if_neg (by simp [ht])]
  · intro hb
    rw [medical_data_cleaner_dispatch, if_pos hb]
  · intro hb hf
    rw [medical_data_cleaner_dispatch, if_neg (by simp [hb]), if_pos hf]
  · intro hb hf ht
    rw [medical_data_cleaner_dispatch, if_neg (by simp [hb]),
      if_neg (by simp [hf]), if_pos ht]

/-- Witness for the amended C8 at concrete inputs: no input at all errors,
and the batch input wins when several are supplied. -/
theorem C8_amended_witness :
    medical_data_cleaner_dispatch "" "" "" = CleanerDispatch.validationError ∧
    medical_data_cleaner_dispatch "文本" "f.txt" "b.txt" =
      CleanerDispatch.batchClean (parseBatchPaths "b.txt") :=
  ⟨(C8_amended "" "" "").1.mpr ⟨rfl, rfl, rfl⟩,
   (C8_amended "文本" "f.txt" "b.txt").2.1 (by decide)⟩

/-! ### QA generator (`qa_generator.py`)

`_assess_difficulty` (lines 335-351) and, further below, the full
`generate_qa_dataset` pipeline. -/

/-- The `complexity_indicators` rows of `_assess_difficulty`, in dict
insertion order. -/
def easyIndicators : List String := ["什么是", "定义", "基本", "常见"]

def mediumIndicators : List String := ["如何", "诊断", "治疗", "症状"]

def hardIndicators : List String := ["机制", "病理", "鉴别", "复杂"]

/-- Number of indicators occurring in `text`. -/
def indicatorHits (ws : List String) (text : List Char) : Nat :=
  (ws.filter (fun w => listContainsSub w.data text)).length

/-- `_assess_difficulty` (qa_generator.py:335-351).  `max(scores,
key=scores.get)` over the dict `{easy, medium, hard}` returns the first
key attaining the maximal score, so hard wins only with a strictly larger
count and medium only when it strictly beats easy. -/
def _assess_difficulty (question answer : String) : String :=
  let text := (question ++ " " ++ answer).data
  let e := indicatorHits easyIndicators text
  let m := indicatorHits mediumIndicators text
  let h := indicatorHits hardIndicators text
  if m ≤ e ∧ h ≤ e then "easy"
  else if h ≤ m then "medium"
  else "hard"

/-- C7, counterexample.  The claim says ties and no-keyword inputs yield
`medium`; with no keyword at all every count is 0 and the source's
first-maximum rule returns `easy`. -/
theorem C7_counterexample :
    _assess_difficulty "" "" = "easy" ∧ ("easy" : String) ≠ "medium" := by
  constructor
  · decide
  · decide

/-- C7, amended.  Difficulty assessment counts keyword hits against the
three fixed sets and returns the first level, in the order easy, medium,
hard, whose count is maximal; in particular a full tie (including the
no-match case) returns easy, and medium or hard require strictly beating
the earlier levels. -/
theorem C7_amended (question answer : String) :
    ( _assess_difficulty question answer = "easy" ∨
      _assess_difficulty question answer = "medium" ∨
      _assess_difficulty question answer = "hard") ∧
    ( _assess_difficulty question answer = "easy" →
      indicatorHits easyIndicators (question ++ " " ++ answer).data =
        max (indicatorHits easyIndicators (question ++ " " ++ answer).data)
          (max (indicatorHits mediumIndicators (question ++ " " ++ answer).data)
            (indicatorHits hardIndicators (question ++ " " ++ answer).data))) ∧
    ( _assess_difficulty question answer = "medium" →
      indicatorHits mediumIndicators (question ++ " " ++ answer).data =
        max (indicatorHits easyIndicators (question ++ " " ++ answer).data)
          (max (indicatorHits mediumIndicators (question ++ " " ++ answer).data)
            (indicatorHits hardIndicators (question ++ " " ++ answer).data)) ∧
      indicatorHits easyIndicators (question ++ " " ++ answer).data <
        indicatorHits mediumIndicators (question ++ " " ++ answer).data) ∧
    ( _assess_difficulty question answer = "hard" →
      indicatorHits hardIndicators (question ++ " " ++ answer).data =
        max (indicatorHits easyIndicators (question ++ " " ++ answer).data)
          (max (indicatorHits mediumIndicators (question ++ " " ++ answer).data)
            (indicatorHits hardIndicators (question ++ " " ++ answer).data)) ∧
      indicatorHits easyIndicators (question ++ " " ++ answer).data <
        indicatorHits hardIndicators (question ++ " " ++ answer).data ∧
      indicatorHits mediumIndicators (question ++ " " ++ answer).data <
        indicatorHits hardIndicators (question ++ " " ++ answer).data) := by
  set e := indicatorHits easyIndicators (question ++ " " ++ answer).data with he
  set m := indicatorHits mediumIndicators (question ++ " " ++ answer).data with hm
  set h := indicatorHits hardIndicators (question ++ " " ++ answer).data with hh
  rw [_assess_difficulty]
  simp only [← he, ← hm, ← hh]
  by_cases h1 : m ≤ e ∧ h ≤ e
  · rw [if_pos h1]
    refine ⟨Or.inl rfl, fun _ => ?_, fun hx => absurd hx (by decide),
      fun hx => absurd hx (by decide)⟩
    omega
  · rw [if_neg h1]
    by_cases h2 : h ≤ m
    · rw [if_pos h2]
      refine ⟨Or.inr (Or.inl rfl), fun hx => absurd hx (by decide), fun _ => ?_,
        fun hx => absurd hx (by decide)⟩
      omega
    · rw [if_neg h2]
      refine ⟨Or.inr (Or.inr rfl), fun hx => absurd hx (by decide),
        fun hx => absurd hx (by decide), fun _ => ?_⟩
      omega

/-- Witness for the amended C7 at a concrete question: "如何诊断" hits the
medium set twice and nothing else, so the result is `medium` with the
stated maximality. -/
theorem C7_amended_witness :
    ( _assess_difficulty "如何诊断腺癌？" "需要活检。" = "easy" ∨
      _assess_difficulty "如何诊断腺癌？" "需要活检。" = "medium" ∨
      _assess_difficulty "如何诊断腺癌？" "需要活检。" = "hard") ∧
    ( _assess_difficulty "如何诊断腺癌？" "需要活检。" = "easy" →
      indicatorHits easyIndicators ("如何诊断腺癌？" ++ " " ++ "需要活检。").data =
        max (indicatorHits easyIndicators ("如何诊断腺癌？" ++ " " ++ "需要活检。").data)
          (max (indicatorHits mediumIndicators ("如何诊断腺癌？" ++ " " ++ "需要活检。").data)
            (indicatorHits hardIndicators ("如何诊断腺癌？" ++ " " ++ "需要活检。").data))) ∧
    ( _assess_difficulty "如何诊断腺癌？" "需要活检。" = "medium" →
      indicatorHits mediumIndicators ("如何诊断腺癌？" ++ " " ++ "需要活检。").data =
        max (indicatorHits easyIndicators ("如何诊断腺癌？" ++ " " ++ "需要活检。").data)
          (max (indicatorHits mediumIndicators ("如何诊断腺癌？" ++ " " ++ "需要活检。").data)
            (indicatorHits hardIndicators ("如何诊断腺癌？" ++ " " ++ "需要活检。").data)) ∧
      indicatorHits easyIndicators ("如何诊断腺癌？" ++ " " ++ "需要活检。").data <
        indicatorHits mediumIndicators ("如何诊断腺癌？" ++ " " ++ "需要活检。").data) ∧
    ( _assess_difficulty "如何诊断腺癌？" "需要活检。" = "hard" →
      indicatorHits hardIndicators ("如何诊断腺癌？" ++ " " ++ "需要活检。").data =
        max (indicatorHits easyIndicators ("如何诊断腺癌？" ++ " " ++ "需要活检。").data)
          (max (indicatorHits mediumIndicators ("如何诊断腺癌？" ++ " " ++ "需要活检。").data)
            (indicatorHits hardIndicators ("如何诊断腺癌？" ++ " " ++ "需要活检。").data)) ∧
      indicatorHits easyIndicators ("如何诊断腺癌？" ++ " " ++ "需要活检。").data <
        indicatorHits hardIndicators ("如何诊断腺癌？" ++ " " ++ "需要活检。").data ∧
      indicatorHits mediumIndicators ("如何诊断腺癌？" ++ " " ++ "需要活检。").data <
        indicatorHits hardIndicators ("如何诊断腺癌？" ++ " " ++ "需要活检。").data) :=
  C7_amended "如何诊断腺癌？" "需要活检。"

/-! The full `generate_qa_dataset` pipeline (qa_generator.py:78-144) with
its helpers.  Randomness (`random.choice`, `random.shuffle`) consumes an
explicit oracle stream. -/

/-- The pseudo-random oracle: a stream of values, one consumed per
`random.choice` and per Fisher-Yates step of `random.shuffle`. -/
structure Rng where
  stream : List Nat
deriving DecidableEq

/-- Draw the next oracle value (0 when the stream is exhausted). -/
def rngNext (r : Rng) : Nat × Rng :=
  match r.stream with
  | [] => (0, ⟨[]⟩)
  | v :: rest => (v, ⟨rest⟩)

/-- `random.choice(l)` for non-empty `l`: the oracle value modulo the
length picks the index. -/
def rngChoice {α : Type} (r : Rng) (l : List α) (d : α) : α × Rng :=
  let (v, r') := rngNext r
  (l.getD (v % l.length) d, r')

/-- Swap two positions of a list (no-op when out of range). -/
def swapL {α : Type} (l : List α) (i j : Nat) : List α :=
  match l.get? i, l.get? j with
  | some a, some b => (l.set i b).set j a
  | _, _ => l

/-- CPython `random.shuffle`: `for i in reversed(range(1, len(x))):
j = randbelow(i + 1); swap x[i] x[j]`.  The recursion argument is the
current index. -/
def pyShuffleAux {α : Type} : Nat → Rng → List α → List α × Rng
  | 0, r, l => (l, r)
  | i + 1, r, l =>
    let (v, r') := rngNext r
    pyShuffleAux i r' (swapL l (i + 1) (v % (i + 2)))

def pyShuffle {α : Type} (r : Rng) (l : List α) : List α × Rng :=
  pyShuffleAux (l.length - 1) r l

/-- The `question_templates` table of `qa_generator.py` (lines 20-57). -/
def questionTemplates (question_type : String) : List String :=
  if question_type = "definition" then
    ["什么是{term}？", "{term}的定义是什么？", "请解释{term}的含义。", "{term}是指什么？"]
  else if question_type = "symptoms" then
    ["{disease}有哪些症状？", "{disease}的临床表现是什么？",
     "{disease}患者会出现什么症状？", "如何识别{disease}的症状？"]
  else if question_type = "diagnosis" then
    ["如何诊断{disease}？", "{disease}的诊断方法有哪些？",
     "{disease}需要做哪些检查？", "怎样确诊{disease}？"]
  else if question_type = "treatment" then
    ["{disease}如何治疗？", "{disease}的治疗方案是什么？",
     "{disease}有哪些治疗方法？", "如何治疗{disease}患者？"]
  else if question_type = "pathology" then
    ["{disease}的病理特征是什么？", "{disease}在显微镜下有什么表现？",
     "{disease}的组织学特点有哪些？", "{disease}的病理改变包括什么？"]
  else if question_type = "differential" then
    ["{disease}需要与哪些疾病鉴别？", "如何鉴别{disease}和{other_disease}？",
     "{disease}的鉴别诊断要点是什么？", "{disease}容易与什么疾病混淆？"]
  else []

/-- One annotation entry of the upstream `annotations` dict
(`{'category': ..., 'term': ...}`). -/
structure CatTerm where
  category : String
  term : String
deriving DecidableEq

/-- One entity entry (`{'type': ..., 'text': ...}`). -/
structure EntityRef where
  type : String
  text : String
deriving DecidableEq

/-- The `annotations` dict consumed by `_extract_key_information`. -/
structure AnnotationsInput where
  pathology : List CatTerm
  diagnosis : List CatTerm
  entities : List EntityRef
deriving DecidableEq

/-- The `annotated_content` argument of `generate_qa_dataset`. -/
structure AnnotatedContent where
  success : Bool
  annotations : AnnotationsInput
  content_summary : String
deriving DecidableEq

/-- The `key_info` buckets. -/
structure KeyInfo where
  diseases : List String
  symptoms : List String
  treatments : List String
  anatomy : List String
  pathology_terms : List String
  diagnosis_terms : List String
deriving DecidableEq

/-- `list(set(filter(None, l)))`: drop empty strings, deduplicate (order
is interpreter-defined in the source; first occurrence is kept here). -/
def dedupNonempty (l : List String) : List String :=
  (l.filter (fun s => !s.isEmpty)).eraseDups

/-- `_extract_key_information` (qa_generator.py:146-191). -/
def _extract_key_information (annotations : AnnotationsInput) : KeyInfo :=
  let diseases0 :=
    (annotations.pathology.filter (fun a => a.category = "疾病分类")).map (fun a => a.term)
  let path0 :=
    (annotations.pathology.filter (fun a => a.category = "组织学特征")).map (fun a => a.term)
  let symptoms0 :=
    (annotations.diagnosis.filter
        (fun a => listContainsSub "临床表现".data a.category.data)).map (fun a => a.term)
  let treatments0 :=
    (annotations.diagnosis.filter
        (fun a => !listContainsSub "临床表现".data a.category.data &&
          listContainsSub "治疗".data a.category.data)).map (fun a => a.term)
  let diag0 :=
    (annotations.diagnosis.filter
        (fun a => !listContainsSub "临床表现".data a.category.data &&
          !listContainsSub "治疗".data a.category.data)).map (fun a => a.term)
  let diseases1 :=
    diseases0 ++ (annotations.entities.filter (fun en => en.type = "disease")).map
      (fun en => en.text)
  let anatomy0 :=
    (annotations.entities.filter (fun en => en.type = "anatomy")).map (fun en => en.text)
  { diseases := dedupNonempty diseases1,
    symptoms := dedupNonempty symptoms0,
    treatments := dedupNonempty treatments0,
    anatomy := dedupNonempty anatomy0,
    pathology_terms := dedupNonempty path0,
    diagnosis_terms := dedupNonempty diag0 }

/-- `_distribute_question_types` (qa_generator.py:193-202). -/
def _distribute_question_types (total_count type_count : Nat) : List Nat :=
  let base := total_count / type_count
  let rem := total_count % type_count
  (List.range type_count).map (fun i => if i < rem then base + 1 else base)

/-- `_select_entity_for_type`'s candidate pool (qa_generator.py:254-263);
the selection itself draws from the oracle. -/
def _select_entity_pool (question_type : String) (key_info : KeyInfo) : List String :=
  if question_type = "pathology" then key_info.pathology_terms ++ key_info.diseases
  else key_info.diseases

/-- `template.format(term=entity, disease=entity)`: substitutes the two
supplied placeholders and raises `KeyError` (here `none`) when the
template references the unsupplied `{other_disease}`. -/
def pyFormatTD (template entity : String) : Option String :=
  if strContains template "{other_disease}" then none
  else some (strReplace (strReplace template "{term}" entity) "{disease}" entity)

/-- `_generate_question` (qa_generator.py:265-275).  The branch that would
fill `{other_disease}` afterwards is dead in practice: the initial format
call has already raised on such templates. -/
def _generate_question (r : Rng) (template entity : String) (key_info : KeyInfo) :
    Option (String × Rng) :=
  match pyFormatTD template entity with
  | none => none
  | some question =>
    if strContains template "{other_disease}" then
      let others := key_info.diseases.filter (fun d => d ≠ entity)
      if others.isEmpty then
        some (strReplace question "{other_disease}" "其他疾病", r)
      else
        let (od, r') := rngChoice r others "其他疾病"
        some (strReplace question "{other_disease}" od, r')
    else some (question, r)

/-- `_find_relevant_sentences` (qa_generator.py:310-319). -/
def _find_relevant_sentences (entity content : String) : List String :=
  ((splitOnDelims (fun c => c = '。' || c = '！' || c = '？') content.data).filter
      (fun sent => listContainsSub entity.data sent && 10 < (pyStrip sent).length)).map
    (fun sent => String.mk (pyStrip sent))

/-- `_generate_basic_answer` (qa_generator.py:321-333). -/
def _generate_basic_answer (question_type entity : String) : String :=
  if question_type = "definition" then entity ++ "是一种医学概念，需要进一步的专业解释。"
  else if question_type = "symptoms" then entity ++ "的症状需要根据具体情况进行临床评估。"
  else if question_type = "diagnosis" then entity ++ "的诊断需要结合临床表现和相关检查。"
  else if question_type = "treatment" then entity ++ "的治疗应该根据患者具体情况制定个体化方案。"
  else if question_type = "pathology" then entity ++ "的病理特征需要通过组织学检查确定。"
  else if question_type = "differential" then entity ++ "需要与相关疾病进行鉴别诊断。"
  else "关于" ++ entity ++ "的详细信息需要咨询专业医生。"

/-- `_generate_answer` (qa_generator.py:277-308). -/
def _generate_answer (question_type entity content : String) : String :=
  let relevant := _find_relevant_sentences entity content
  if relevant.isEmpty then _generate_basic_answer question_type entity
  else
    let parts :=
      if question_type = "definition" then (entity ++ "是指") :: relevant.take 2
      else if question_type = "symptoms" then (entity ++ "的主要症状包括：") :: relevant.take 3
      else if question_type = "diagnosis" then (entity ++ "的诊断主要依据：") :: relevant.take 3
      else if question_type = "treatment" then (entity ++ "的治疗方法包括：") :: relevant.take 3
      else if question_type = "pathology" then (entity ++ "的病理特征表现为：") :: relevant.take 2
      else relevant.take 3
    String.intercalate " " parts

/-- The three keyword alternation lists of `_extract_keywords`. -/
def kw1Alts : List String := ["病", "症", "癌", "瘤", "炎"]

def kw2Alts : List String := ["诊断", "治疗", "检查", "手术"]

def kw3Alts : List String := ["细胞", "组织", "器官", "系统"]

/-- `_extract_keywords` (qa_generator.py:353-369): findall each pattern
over `question + ' ' + answer`, keep matches of length at least 2,
deduplicate, cap at 10. -/
def _extract_keywords (question answer : String) : List String :=
  let text := (question ++ " " ++ answer).data
  let ms :=
    (pyFindAllTerms (kw1Alts.map (fun s => s.data)) text ++
      pyFindAllTerms (kw2Alts.map (fun s => s.data)) text ++
      pyFindAllTerms (kw3Alts.map (fun s => s.data)) text).filter
      (fun m => 2 ≤ m.length)
  ((ms.map (fun m => String.mk m)).eraseDups).take 10

/-- `_calculate_qa_quality` (qa_generator.py:371-391). -/
def _calculate_qa_quality (question answer : String) : ℚ :=
  let s1 : ℚ := if 5 ≤ question.data.length then 20 else 0
  let s2 : ℚ := if strContains question "？" || strContains question "?" then 10 else 0
  let s3 : ℚ := if strContains question "什么" || strContains question "如何" ||
      strContains question "哪些" || strContains question "怎样" then 20 else 0
  let s4 : ℚ := if 20 ≤ answer.data.length then 20 else 0
  let s5 : ℚ := if 5 ≤ (pySplitWs answer.data).length then 15 else 0
  let s6 : ℚ := if strContains answer "包括" || strContains answer "表现为" ||
      strContains answer "主要" || strContains answer "需要" then 15 else 0
  min (qdiv (qadd (qadd (qadd (qadd (qadd s1 s2) s3) s4) s5) s6) 100) 1

/-- One generated Q&A pair. -/
structure GeneratedQA where
  id : String
  question : String
  answer : String
  question_type : String
  difficulty : String
  keywords : List String
  entity : String
  quality_score : ℚ
deriving DecidableEq

/-- The per-archetype generation loop of `_generate_qa_by_type`
(qa_generator.py:204-252); each failed iteration (`continue`) simply
moves on. -/
def _generate_qa_by_type_loop (question_type : String) (key_info : KeyInfo)
    (content : String) : Nat → Rng → List GeneratedQA → List GeneratedQA × Rng
  | 0, r, acc => (acc, r)
  | n + 1, r, acc =>
    let pool := _select_entity_pool question_type key_info
    if pool.isEmpty then
      _generate_qa_by_type_loop question_type key_info content n r acc
    else
      let (entity, r1) := rngChoice r pool ""
      let (template, r2) := rngChoice r1 (questionTemplates question_type) ""
      match _generate_question r2 template entity key_info with
      | none => _generate_qa_by_type_loop question_type key_info content n r2 acc
      | some (question, r3) =>
        let answer := _generate_answer question_type entity content
        let pair : GeneratedQA :=
          { id := "qa_" ++ toString (acc.length + 1),
            question := question,
            answer := answer,
            question_type := question_type,
            difficulty := _assess_difficulty question answer,
            keywords := _extract_keywords question answer,
            entity := entity,
            quality_score := _calculate_qa_quality question answer }
        _generate_qa_by_type_loop question_type key_info content n r3 (acc ++ [pair])

/-- `_generate_qa_by_type` (qa_generator.py:204-252). -/
def _generate_qa_by_type (question_type : String) (key_info : KeyInfo)
    (content : String) (count : Nat) (r : Rng) : List GeneratedQA × Rng :=
  if (questionTemplates question_type).isEmpty then ([], r)
  else _generate_qa_by_type_loop question_type key_info content count r []

/-- The archetype loop of step 2 of `generate_qa_dataset`. -/
def genAll : List (String × Nat) → KeyInfo → String → Rng → List GeneratedQA × Rng
  | [], _, _, r => ([], r)
  | (qt, c) :: rest, key_info, content, r =>
    let (pairs, r') := _generate_qa_by_type qt key_info content c r
    let (more, r'') := genAll rest key_info content r'
    (pairs ++ more, r'')

/-- Sort comparator of `_optimize_qa_pairs`: stable sort by quality score,
descending (Python `list.sort(key=..., reverse=True)`). -/
def qualityGE (a b : GeneratedQA) : Prop := b.quality_score ≤ a.quality_score

instance : DecidableRel qualityGE := fun a b => by
  unfold qualityGE; infer_instance

/-- Python `\w` over the repertoire this program uses: ASCII alphanumerics,
underscore, and the CJK unified ideographs. -/
def isWordChar (c : Char) : Bool :=
  c.isAlphanum || c = '_' || (0x4E00 ≤ c.toNat && c.toNat ≤ 0x9FFF)

/-- `_normalize_question` (qa_generator.py:410-414):
`re.sub(r'[^\w]', '', question.lower())`. -/
def _normalize_question (question : String) : String :=
  String.mk ((question.data.map Char.toLower).filter isWordChar)

/-- The seen-set deduplication of `_optimize_qa_pairs`. -/
def dedupByNormalized : List GeneratedQA → List String → List GeneratedQA
  | [], _ => []
  | p :: rest, seen =>
    let key := _normalize_question p.question
    if seen.contains key then dedupByNormalized rest seen
    else p :: dedupByNormalized rest (key :: seen)

/-- `_optimize_qa_pairs` (qa_generator.py:393-408). -/
def _optimize_qa_pairs (qa_pairs : List GeneratedQA) : List GeneratedQA :=
  dedupByNormalized (List.insertionSort qualityGE qa_pairs) []

/-- Ordered counting dict (`d[k] = d.get(k, 0) + 1` in insertion order). -/
def bumpKey : List (String × Nat) → String → List (String × Nat)
  | [], k => [(k, 1)]
  | (k', n) :: rest, k =>
    if k' = k then (k', n + 1) :: rest else (k', n) :: bumpKey rest k

/-- The statistics dict of `_generate_dataset_stats`. -/
structure DatasetStats where
  difficulty_distribution : List (String × Nat)
  question_type_distribution : List (String × Nat)
  average_quality_score : ℚ
  total_keywords : Nat
  average_question_length : ℚ
  average_answer_length : ℚ
deriving DecidableEq

/-- `_generate_dataset_stats` (qa_generator.py:416-444); the source
returns `{}` on an empty list. -/
def _generate_dataset_stats (qa_pairs : List GeneratedQA) : Option DatasetStats :=
  if qa_pairs.isEmpty then none
  else
    some
      { difficulty_distribution :=
          qa_pairs.foldl (fun acc p => bumpKey acc p.difficulty) [],
        question_type_distribution :=
          qa_pairs.foldl (fun acc p => bumpKey acc p.question_type) [],
        average_quality_score :=
          pyRound (qdiv ((qa_pairs.map (fun p => p.quality_score)).foldl qadd 0)
            (qa_pairs.length : ℚ)) 3,
        total_keywords :=
          ((qa_pairs.flatMap (fun p => p.keywords)).eraseDups).length,
        average_question_length :=
          qdiv (((qa_pairs.map (fun p => p.question.data.length)).sum : ℕ) : ℚ)
            (qa_pairs.length : ℚ),
        average_answer_length :=
          qdiv (((qa_pairs.map (fun p => p.answer.data.length)).sum : ℕ) : ℚ)
            (qa_pairs.length : ℚ) }

/-- The quality-metrics dict of `_calculate_quality_metrics`. -/
structure QualityMetrics where
  completeness : ℚ
  diversity : ℚ
  professionalism : ℚ
  overall_quality : ℚ
deriving DecidableEq

/-- `_calculate_quality_metrics` (qa_generator.py:446-468). -/
def _calculate_quality_metrics (qa_pairs : List GeneratedQA) : Option QualityMetrics :=
  if qa_pairs.isEmpty then none
  else
    let n : ℚ := (qa_pairs.length : ℚ)
    let complete :=
      (qa_pairs.filter (fun p => !p.question.isEmpty && !p.answer.isEmpty)).length
    let completeness := qdiv (complete : ℚ) n
    let unique_questions := ((qa_pairs.map (fun p => p.question)).eraseDups).length
    let diversity := qdiv (unique_questions : ℚ) n
    let kwcount := (qa_pairs.map (fun p => p.keywords.length)).sum
    let professionalism := min (qdiv (kwcount : ℚ) (qmul n 5)) 1
    some
      { completeness := pyRound completeness 3,
        diversity := pyRound diversity 3,
        professionalism := pyRound professionalism 3,
        overall_quality :=
          pyRound (qdiv (qadd (qadd completeness diversity) professionalism) 3) 3 }

/-- The result dict of `generate_qa_dataset` (`generation_time` is
wall-clock and is left out). -/
structure GenResult where
  success : Bool
  error : Option String
  total_qa_pairs : Nat
  source_content_length : Nat
  annotation_count : Nat
  qa_pairs : List GeneratedQA
  statistics : Option DatasetStats
  quality_metrics : Option QualityMetrics
deriving DecidableEq

/-- The fixed archetype order of `generate_qa_dataset`. -/
def qaTypeNames : List String :=
  ["definition", "symptoms", "diagnosis", "treatment", "pathology", "differential"]

/-- `generate_qa_dataset` (qa_generator.py:78-144). -/
def generate_qa_dataset (annotated_content : AnnotatedContent) (qa_count : Nat)
    (r : Rng) : GenResult :=
  if !annotated_content.success then
    { success := false, error := some "输入的标注内容无效", total_qa_pairs := 0,
      source_content_length := 0, annotation_count := 0, qa_pairs := [],
      statistics := none, quality_metrics := none }
  else
    let annotations := annotated_content.annotations
    let content := annotated_content.content_summary
    let key_info := _extract_key_information annotations
    let counts := _distribute_question_types qa_count 6
    let (qa_pairs, r1) := genAll (qaTypeNames.zip counts) key_info content r
    let (shuffled, _r2) := pyShuffle r1 qa_pairs
    let optimized := _optimize_qa_pairs (shuffled.take qa_count)
    { success := true, error := none,
      total_qa_pairs := optimized.length,
      source_content_length := content.data.length,
      annotation_count :=
        annotations.pathology.length + annotations.diagnosis.length +
          annotations.entities.length,
      qa_pairs := optimized,
      statistics := _generate_dataset_stats optimized,
      quality_metrics := _calculate_quality_metrics optimized }

/-- The C3 failing input: a successful annotation result whose only
entity is the disease `腺癌`, with empty content. -/
def c3Annotations : AnnotationsInput :=
  { pathology := [], diagnosis := [],
    entities := [{ type := "disease", text := "腺癌" }] }

def c3Input : AnnotatedContent :=
  { success := true, annotations := c3Annotations, content_summary := "" }

/-- The C3 oracle: every archetype draws entity index 0 and template
index 0, except `differential`, which draws template index 1 (the template
containing `{other_disease}`); the tail makes the shuffle the identity. -/
def c3Rng : Rng := ⟨[0, 0, 0, 0, 0, 0, 0, 0, 0, 0, 0, 1, 4, 3, 2, 1]⟩

/-- C3.  With `qa_count = 6`, each of the six archetypes is allotted one
pair and every archetype's entity pool is non-empty, yet only 5 pairs come
back and deduplication removed nothing: the `differential` iteration chose
the template `如何鉴别{disease}和{other_disease}？`, whose initial
`format(term=..., disease=...)` raises `KeyError('other_disease')` (the
code that would fill `{other_disease}` sits after that call and is never
reached), and the loop silently skips the pair.  So a shortfall exists
that is caused neither by deduplication nor by an empty entity pool. -/
theorem C3_shortfall_extra_cause :
    (generate_qa_dataset c3Input 6 c3Rng).success = true ∧
    (generate_qa_dataset c3Input 6 c3Rng).qa_pairs.length = 5 ∧
    _distribute_question_types 6 6 = [1, 1, 1, 1, 1, 1] ∧
    (∀ qt ∈ qaTypeNames,
      ( _select_entity_pool qt ( _extract_key_information c3Input.annotations)).isEmpty
        = false) ∧
    ((generate_qa_dataset c3Input 6 c3Rng).qa_pairs.map
        (fun p => _normalize_question p.question)).Nodup ∧
    pyFormatTD "如何鉴别{disease}和{other_disease}？" "腺癌" = none := by
  refine ⟨by decide, by decide, by decide, by decide, by decide, by decide⟩

end Nexent
